import Mathlib

/-!
Shallow embedding of the core of the Base-Server repository
(`base_server/helpers/api_client.py`, `base_server/tasks/google_sheets.py`,
`base_server/tasks/google_docs.py`, `base_server/tasks/xero.py`,
`base_server/tasks/web_scrape.py`, `base_server/models/xero_client.py`)
together with theorems settling the specification claims about it.

Python strings are modelled as Lean `String`s, Python `int`/`float` as
`Int`/`Rat`, missing dictionary keys as `Option`, raised exceptions as
explicit error values (`Except`/`Option`), and network traffic as an
explicit environment function passed to the embedded operation, which also
returns the list of requests it issued, so that "no network call" is the
statement that this list is empty.
-/

namespace BaseServer

/-! ### Python `str.lstrip('/')` and `str.rstrip('/')` -/

/-- Python `s.lstrip('/')`: removes every leading `'/'` character. -/
def pyLstripSlash (s : String) : String :=
  ⟨s.data.dropWhile (· == '/')⟩

/-- Python `s.rstrip('/')`: removes every trailing `'/'` character. -/
def pyRstripSlash (s : String) : String :=
  ⟨(s.data.reverse.dropWhile (· == '/')).reverse⟩

/-! ### `ApiClient.__init__` base-URL normalisation and `ApiClient._prepare_url`
(`base_server/helpers/api_client.py`) -/

/-- `ApiClient.__init__`: `self.base_url = base_url.rstrip("/")` when `base_url`
is a string, else `None`. -/
def ApiClient.initBaseUrl (base_url : Option String) : Option String :=
  match base_url with
  | some s => some (pyRstripSlash s)
  | none => none

/-- `ApiClient._prepare_url`: when `self.base_url` is truthy (a non-empty
string) the endpoint is joined to it with one slash after stripping the
endpoint's leading slashes; otherwise the stripped endpoint is returned. -/
def ApiClient.prepare_url (baseUrl : Option String) (endpoint : String) : String :=
  match baseUrl with
  | some b => if b ≠ "" then b ++ "/" ++ pyLstripSlash endpoint else pyLstripSlash endpoint
  | none => pyLstripSlash endpoint

/-! ### `Sheet.value_to_object` (`base_server/tasks/google_sheets.py`) -/

/-- A Python value accepted by `Sheet.value_to_object`: `bool` checked first
(in Python `bool` is a subclass of `int`, and the source tests
`isinstance(value, bool)` before `isinstance(value, (float, int))`),
then `int`/`float`, then `str`. -/
inductive PyValue where
  | bool (b : Bool)
  | int (n : Int)
  | float (q : Rat)
  | str (s : String)
deriving Repr, DecidableEq

/-- The numeric payload stored under `numberValue` (a Python `int` or `float`). -/
inductive PyNum where
  | int (n : Int)
  | float (q : Rat)
deriving Repr, DecidableEq

/-- The discriminated value union of the Google Sheets API produced by
`Sheet.value_to_object`. -/
inductive ExtValue where
  | boolValue (b : Bool)
  | numberValue (v : PyNum)
  | formulaValue (s : String)
  | stringValue (s : String)
deriving Repr, DecidableEq

/-- `Sheet.value_to_object`: classify a caller-supplied value into the API's
value union. The nested length test mirrors the source
(`if isinstance(value, str) and len(value):` followed by
`if len(value) > 0:`); the empty string reaches the final `return None`. -/
def value_to_object : PyValue → Option ExtValue
  | .bool b => some (.boolValue b)
  | .int n => some (.numberValue (.int n))
  | .float q => some (.numberValue (.float q))
  | .str s =>
      if s.length ≠ 0 then
        if 0 < s.length then
          if s.data.head? = some '=' then some (.formulaValue s)
          else some (.stringValue s)
        else some (.stringValue s)
      else none

/-! ### `ApiClient.request` (`base_server/helpers/api_client.py`) -/

/-- A JSON value (decoded response body). -/
inductive Json where
  | null
  | bool (b : Bool)
  | num (q : Rat)
  | str (s : String)
  | arr (elems : List Json)
  | obj (fields : List (String × Json))

/-- Python `dict.get(k)` on a JSON object (and `None` on non-objects):
the value of the first field named `k`, if any. -/
def Json.objGet? : Json → String → Option Json
  | .obj fields, k => (fields.find? (fun kv => kv.1 == k)).map (·.2)
  | _, _ => none

/-- Python `isinstance(x, dict)` on a JSON value. -/
def Json.isDict : Json → Bool
  | .obj _ => true
  | _ => false

/-- Python `k in x` for a JSON object. -/
def Json.hasKey : Json → String → Bool
  | .obj fields, k => fields.any (fun kv => kv.1 == k)
  | _, _ => false

/-- The outcome of `self.session.request(...)` as seen by the `try` block of
`ApiClient.request`: the request may raise `Timeout`, raise some other
transport-level `RequestException` (connection failure, or `RetryError` after
the adapter's retries are exhausted), or produce a response carrying a status
code, the raw body text, and the body's JSON parse (`none` when the body is
not valid JSON, in which case `response.json()` raises `JSONDecodeError`,
a subclass of `RequestException`). -/
inductive SessionResult where
  | timeout
  | transportError
  | response (status : Nat) (text : String) (json : Option Json)

/-- What `ApiClient.request` hands back on success: the raw body bytes
(`raw=True`) or a decoded JSON value. -/
inductive RequestResult where
  | rawContent (text : String)
  | jsonBody (j : Json)

/-- `ApiClient.request`: `response.raise_for_status()` raises `HTTPError`
exactly when the status code is `≥ 400`; every `Timeout`, `HTTPError` and
other `RequestException` (including `JSONDecodeError` from `response.json()`)
is caught inside the method and converted into a logged `None` — the function
is total, so no exception crosses the boundary in the model — except that
`handle_400=True` turns a 400 response into the sentinel payload
`{'message': 'Bad request'}`. -/
def ApiClient.request (res : SessionResult) (handle_400 raw : Bool) :
    Option RequestResult :=
  match res with
  | .timeout => none
  | .transportError => none
  | .response status text json =>
      if 400 ≤ status then
        if handle_400 ∧ status = 400 then
          some (.jsonBody (.obj [("message", .str "Bad request")]))
        else none
      else
        if raw then some (.rawContent text)
        else
          match json with
          | some j => some (.jsonBody j)
          | none => none

/-- The GET/POST/PUT/DELETE convenience wrappers forward to `request` with the
method fixed; the method does not influence the failure handling, so they are
the same function of the session outcome. -/
def ApiClient.get (res : SessionResult) (handle_400 raw : Bool) :
    Option RequestResult :=
  ApiClient.request res handle_400 raw

/-! ### The `Sheet` snapshot grid and read accessors
(`base_server/tasks/google_sheets.py`) -/

/-- The Google Sheets `ExtendedValue` union as stored inside a cell of the
snapshot: any subset of the four typed fields may be present. -/
structure ExtendedValue where
  numberValue : Option Rat := none
  stringValue : Option String := none
  boolValue : Option Bool := none
  formulaValue : Option String := none
deriving Repr, DecidableEq

/-- One cell of the snapshot grid: the keys of the cell's JSON object that
the read accessors consult. The empty dictionary `{}` is the cell with every
field absent. -/
structure SheetCell where
  userEnteredValue : Option ExtendedValue := none
  effectiveValue : Option ExtendedValue := none
  formattedValue : Option String := none
deriving Repr, DecidableEq

/-- The empty cell dictionary `{}` appended for padding rows. -/
def SheetCell.empty : SheetCell := {}

/-- One entry of the preload's `rowData` list: a row object that may lack the
`values` key. -/
structure GridRow where
  values : Option (List SheetCell)
deriving Repr, DecidableEq

/-- The parts of the Sheets API preload JSON that `Sheet.__init__` and
`Sheet.reload` read: `spreadsheetId`, `sheets[0].properties.sheetId`,
`sheets[0].properties.title` and, optionally, `sheets[0].data[0].rowData`. -/
structure SheetPreload where
  spreadsheetId : String
  sheetId : Int
  title : String
  rowData : Option (List GridRow)
deriving Repr, DecidableEq

/-- The row appended for a row object without a `values` key: as wide as the
first already-built row if there is one, else a single empty cell. -/
def padRow (cellArray : List (List SheetCell)) : List SheetCell :=
  match cellArray.head? with
  | some r0 => List.replicate r0.length SheetCell.empty
  | none => [SheetCell.empty]

/-- The `for row_object in rows` loop of `Sheet.__init__`/`Sheet.reload`
building `self.cell_array`. -/
def buildCellArray (rows : List GridRow) : List (List SheetCell) :=
  rows.foldl
    (fun acc row =>
      match row.values with
      | none => acc ++ [padRow acc]
      | some vs => acc ++ [vs])
    []

/-- The running `self.width = max(self.width, len(row_object['values']))`
computed by `Sheet.__init__` (not recomputed by `Sheet.reload`). -/
def gridWidth (rows : List GridRow) : Nat :=
  rows.foldl
    (fun w row =>
      match row.values with
      | none => w
      | some vs => max w vs.length)
    0

/-- The in-memory state of a `Sheet` object. `Req` is the type of queued
batch-update request descriptors (opaque dictionaries appended by the
mutating methods). -/
structure SheetState (Req : Type) where
  spreadsheet_id : String
  sheet_id : Int
  sheet_name : String
  requests : List Req
  width : Nat
  cell_array : List (List SheetCell)
deriving Repr, DecidableEq

/-- `Sheet.__init__`: parse the preload; with `get_data=False` (or without
`rowData`) the grid stays empty. -/
def Sheet.ofPreload (Req : Type) (p : SheetPreload) (get_data : Bool) :
    SheetState Req :=
  { spreadsheet_id := p.spreadsheetId
    sheet_id := p.sheetId
    sheet_name := p.title
    requests := []
    width :=
      if get_data then
        match p.rowData with
        | none => 0
        | some rows => gridWidth rows
      else 0
    cell_array :=
      if get_data then
        match p.rowData with
        | none => []
        | some rows => buildCellArray rows
      else [] }

/-- `Sheet.reload`: replace every field from the preload and clear the
request queue; the source's `reload` does not touch `self.width`. -/
def Sheet.reload {Req : Type} (s : SheetState Req) (p : SheetPreload) :
    SheetState Req :=
  { spreadsheet_id := p.spreadsheetId
    sheet_id := p.sheetId
    sheet_name := p.title
    requests := []
    width := s.width
    cell_array :=
      match p.rowData with
      | none => []
      | some rows => buildCellArray rows }

/-- A scalar read out of a cell: the raw payload found under one of the typed
keys (a formula is returned as its string). -/
inductive CellScalar where
  | num (q : Rat)
  | str (s : String)
  | bool (b : Bool)
deriving Repr, DecidableEq

/-- The preference-ordered extraction of `Sheet.get_value`:
`['numberValue', 'stringValue', 'boolValue', 'formulaValue']`. -/
def ExtendedValue.preferred : ExtendedValue → Option CellScalar
  | v =>
      match v.numberValue with
      | some q => some (.num q)
      | none =>
          match v.stringValue with
          | some t => some (.str t)
          | none =>
              match v.boolValue with
              | some b => some (.bool b)
              | none =>
                  match v.formulaValue with
                  | some f => some (.str f)
                  | none => none

/-- `Sheet.get_value`: a pure function of the snapshot (no network access in
the source method; `IndexError` is caught and becomes `None`). Missing cell,
missing value object, or value object without any of the four typed keys all
yield `None`. -/
def Sheet.get_value {Req : Type} (s : SheetState Req) (row column : Nat) :
    Option CellScalar :=
  match (s.cell_array.get? row).bind (fun r => r.get? column) with
  | none => none
  | some cell =>
      match
        (match cell.userEnteredValue with
         | some v => some v
         | none => cell.effectiveValue) with
      | none => none
      | some value => value.preferred

/-- `Sheet.get_formatted_value`: returns the cell's `formattedValue` when
present, falls back to `get_value` when the key is absent, and returns `None`
on `IndexError` (out-of-bounds access). Also a pure function of the
snapshot. -/
def Sheet.get_formatted_value {Req : Type} (s : SheetState Req)
    (row column : Nat) : Option CellScalar :=
  match (s.cell_array.get? row).bind (fun r => r.get? column) with
  | none => none
  | some cell =>
      match cell.formattedValue with
      | none => Sheet.get_value s row column
      | some fv => some (.str fv)

/-! ### `commit_changes` for `Sheet`, `Spreadsheet` and `Document`
(`base_server/tasks/google_sheets.py`, `base_server/tasks/google_docs.py`)

The batch-update service is modelled as a function from the request body to
the optional response (`none` models `batch_update` returning a falsy value
after its retries). Each commit returns the Python result, the new object
state, and the list of request bodies it sent over the network. -/

/-- The body of `Sheet.commit_changes`'s `batchUpdate` call. -/
structure SheetBatchBody (Req : Type) where
  requests : List Req
  includeSpreadsheetInResponse : Bool
  responseRanges : List String
  responseIncludeGridData : Bool
deriving Repr, DecidableEq

/-- A truthy `batchUpdate` response for `Sheet.commit_changes`; the
`updatedSpreadsheet` key may be absent. -/
structure SheetBatchResponse where
  updatedSpreadsheet : Option SheetPreload
deriving Repr, DecidableEq

/-- The request body assembled by `Sheet.commit_changes(update)`. -/
def Sheet.commitBody {Req : Type} (s : SheetState Req) (update : Bool) :
    SheetBatchBody Req :=
  { requests := s.requests
    includeSpreadsheetInResponse := update
    responseRanges := [s.sheet_name]
    responseIncludeGridData := update }

/-- `Sheet.commit_changes(update)`: empty queue returns `True` with no
network call; a falsy response returns `False` leaving the state untouched;
a truthy response returns `True`, reloading (and thereby clearing the queue)
only when `update=True`. The first component is `none` exactly when Python
would raise an uncaught `KeyError` (`update=True` but the response has no
`'updatedSpreadsheet'` key). -/
def Sheet.commit_changes {Req : Type} (s : SheetState Req)
    (svc : SheetBatchBody Req → Option SheetBatchResponse) (update : Bool) :
    Option (Bool × SheetState Req) × List (SheetBatchBody Req) :=
  if s.requests.length = 0 then (some (true, s), [])
  else
    let body : SheetBatchBody Req := Sheet.commitBody s update
    match svc body with
    | none => (some (false, s), [body])
    | some preload =>
        if update then
          match preload.updatedSpreadsheet with
          | some p => (some (true, Sheet.reload s p), [body])
          | none => (none, [body])
        else (some (true, s), [body])

/-- The `sheets[*].properties` of a spreadsheet preload. -/
structure SheetProps where
  sheetId : Int
  title : String
deriving Repr, DecidableEq

/-- The parts of the preload JSON `Spreadsheet.__init__`/`reload` read. -/
structure SpreadsheetPreload where
  spreadsheetId : String
  sheets : List SheetProps
deriving Repr, DecidableEq

/-- Python dictionary insertion (later assignments to the same key
overwrite). -/
def dictInsert (d : List (Int × String)) (k : Int) (v : String) :
    List (Int × String) :=
  if d.any (fun kv => kv.1 == k) then
    d.map (fun kv => if kv.1 == k then (k, v) else kv)
  else d ++ [(k, v)]

/-- The `for sheet in preload['sheets']` loop building `self.title_key`. -/
def buildTitleKey (sheets : List SheetProps) : List (Int × String) :=
  sheets.foldl (fun d sp => dictInsert d sp.sheetId sp.title) []

/-- The in-memory state of a `Spreadsheet` object. -/
structure SpreadsheetState (Req : Type) where
  spreadsheet_id : String
  requests : List Req
  title_key : List (Int × String)
deriving Repr, DecidableEq

/-- `Spreadsheet.__init__`. -/
def Spreadsheet.ofPreload (Req : Type) (p : SpreadsheetPreload) :
    SpreadsheetState Req :=
  { spreadsheet_id := p.spreadsheetId
    requests := []
    title_key := buildTitleKey p.sheets }

/-- `Spreadsheet.reload`: rebuild every field from the preload, clearing the
request queue. -/
def Spreadsheet.reload {Req : Type} (_s : SpreadsheetState Req)
    (p : SpreadsheetPreload) : SpreadsheetState Req :=
  { spreadsheet_id := p.spreadsheetId
    requests := []
    title_key := buildTitleKey p.sheets }

/-- The body of `Spreadsheet.commit_changes`'s `batchUpdate` call. -/
structure SpreadsheetBatchBody (Req : Type) where
  requests : List Req
  includeSpreadsheetInResponse : Bool
deriving Repr, DecidableEq

/-- A truthy `batchUpdate` response for `Spreadsheet.commit_changes`. -/
structure SpreadsheetBatchResponse where
  updatedSpreadsheet : Option SpreadsheetPreload
deriving Repr, DecidableEq

/-- The request body assembled by `Spreadsheet.commit_changes(update)`. -/
def Spreadsheet.commitBody {Req : Type} (s : SpreadsheetState Req)
    (update : Bool) : SpreadsheetBatchBody Req :=
  { requests := s.requests, includeSpreadsheetInResponse := update }

/-- `Spreadsheet.commit_changes(update)`: same control flow as
`Sheet.commit_changes` (including the queue surviving a successful commit
with `update=False`). -/
def Spreadsheet.commit_changes {Req : Type} (s : SpreadsheetState Req)
    (svc : SpreadsheetBatchBody Req → Option SpreadsheetBatchResponse)
    (update : Bool) :
    Option (Bool × SpreadsheetState Req) × List (SpreadsheetBatchBody Req) :=
  if s.requests.length = 0 then (some (true, s), [])
  else
    let body : SpreadsheetBatchBody Req := Spreadsheet.commitBody s update
    match svc body with
    | none => (some (false, s), [body])
    | some preload =>
        if update then
          match preload.updatedSpreadsheet with
          | some p => (some (true, Spreadsheet.reload s p), [body])
          | none => (none, [body])
        else (some (true, s), [body])

/-- The in-memory state of a `Document` object
(`base_server/tasks/google_docs.py`). -/
structure DocumentState (Req : Type) where
  document_id : String
  requests : List Req
deriving Repr, DecidableEq

/-- The body of `Document.commit_changes`'s `batchUpdate` call. -/
structure DocBatchBody (Req : Type) where
  requests : List Req
deriving Repr, DecidableEq

/-- The request body assembled by `Document.commit_changes`. -/
def Document.commitBody {Req : Type} (s : DocumentState Req) :
    DocBatchBody Req :=
  { requests := s.requests }

/-- `Document.commit_changes` (no `update` parameter): empty queue returns
`True` without a network call; a falsy response returns `False` leaving the
queue untouched; a truthy response resets `self.requests = []` and returns
`True`. The response content (a JSON dictionary) is never inspected, so it is
modelled as `Unit`. -/
def Document.commit_changes {Req : Type} (s : DocumentState Req)
    (svc : DocBatchBody Req → Option Unit) :
    (Bool × DocumentState Req) × List (DocBatchBody Req) :=
  if s.requests.isEmpty then ((true, s), [])
  else
    let body : DocBatchBody Req := Document.commitBody s
    match svc body with
    | none => ((false, s), [body])
    | some _ => ((true, { s with requests := [] }), [body])

/-! ### `XeroClient` token storage (`base_server/models/xero_client.py`) -/

/-- Modelled from the spec: the `cryptography.fernet.Fernet` cipher used by
`XeroClient.set_tokens` is an external library, not part of this repository.
Per the spec, credentials are "serialized, symmetrically encrypted with a
process-wide key, and stored as an opaque blob", and decryption with the
wrong key fails. A Fernet blob is therefore modelled as the encrypting key
paired with the plaintext. -/
structure FernetBlob where
  key : String
  plaintext : String
deriving Repr, DecidableEq

/-- Modelled from the spec: `Fernet(key).encrypt(bytes(msg, 'utf-8'))`. -/
def fernetEncrypt (key msg : String) : FernetBlob := ⟨key, msg⟩

/-- Modelled from the spec: `Fernet(key).decrypt(blob).decode('utf-8')`;
decryption under a different key raises `InvalidToken`, modelled as
`none`. -/
def fernetDecrypt (key : String) (blob : FernetBlob) : Option String :=
  if blob.key = key then some blob.plaintext else none

/-- The columns of a `XeroClient` row that the token accessors touch.
`access_token_expiry` is an opaque datetime (modelled as an integer). -/
structure XeroClientState where
  access_token : Option FernetBlob
  refresh_token : Option FernetBlob
  access_token_expiry : Option Int
  tenant_id : Option String
deriving Repr, DecidableEq

/-- `XeroClient.set_tokens`: encrypt both tokens under the process-wide
`DB_ENCRYPTION_KEY`, store the expiry, and store the tenant id only when the
argument is truthy (a non-empty string). -/
def XeroClient.set_tokens (s : XeroClientState) (key : String)
    (access_token refresh_token : String) (expiry : Int)
    (tenant_id : Option String) : XeroClientState :=
  { access_token := some (fernetEncrypt key access_token)
    refresh_token := some (fernetEncrypt key refresh_token)
    access_token_expiry := some expiry
    tenant_id :=
      match tenant_id with
      | some t => if t ≠ "" then some t else s.tenant_id
      | none => s.tenant_id }

/-- `XeroClient.get_access_token`: `None` when no blob is stored, else the
decryption of the stored blob under the process-wide key. -/
def XeroClient.get_access_token (key : String) (s : XeroClientState) :
    Option String :=
  match s.access_token with
  | none => none
  | some blob => fernetDecrypt key blob

/-- `XeroClient.get_xero_refresh_token`: same for the refresh token. -/
def XeroClient.get_xero_refresh_token (key : String) (s : XeroClientState) :
    Option String :=
  match s.refresh_token with
  | none => none
  | some blob => fernetDecrypt key blob

/-! ### Xero journals fetch (`base_server/tasks/xero.py`) -/

/-- A run of decimal digits as a number; `none` for the empty run or any
non-digit character (Python `int()` raises `ValueError` on those). -/
def digitsToNat? (cs : List Char) : Option Nat :=
  if cs.isEmpty then none
  else
    cs.foldl
      (fun acc c =>
        acc.bind (fun n =>
          if c.isDigit then some (n * 10 + (c.toNat - 48)) else none))
      (some 0)

/-- Python `int(s)` on the sliced datetime: an optional sign followed by at
least one decimal digit (surrounding whitespace, which cannot occur in the
sliced Xero datetimes, is not modelled). -/
def pyInt? (s : String) : Option Int :=
  match s.data with
  | '-' :: rest => (digitsToNat? rest).map (fun n => -(n : Int))
  | '+' :: rest => (digitsToNat? rest).map (fun n => (n : Int))
  | l => (digitsToNat? l).map (fun n => (n : Int))

/-- `date_to_seconds`: Python slices `xero_datetime[6:-7]` (or `[6:-2]`) and
calls `int(...)` on it, then floor-divides by 1000. `int()` on a non-numeric
slice raises `ValueError`, modelled as `Except.error`. Python `//` is floor
division, `Int.fdiv`. -/
def date_to_seconds (xero_datetime : Option String)
    (timezone_present : Bool) : Except Unit (Option Int) :=
  match xero_datetime with
  | none => .ok none
  | some s =>
      let sliced : String :=
        if timezone_present then ⟨(s.data.drop 6).take (s.data.length - 13)⟩
        else ⟨(s.data.drop 6).take (s.data.length - 8)⟩
      match pyInt? sliced with
      | none => .error ()
      | some ms => .ok (some (Int.fdiv ms 1000))

/-- One entry of a journal's `JournalLines` array: the keys read by
`simplify_journals` (absent keys are `none`; amounts are JSON numbers,
`TrackingCategories` is passed through opaquely). -/
structure RawJournalLine where
  journalLineID : Option String := none
  accountID : Option String := none
  accountCode : Option String := none
  accountType : Option String := none
  accountName : Option String := none
  description : Option String := none
  netAmount : Option Rat := none
  grossAmount : Option Rat := none
  taxAmount : Option Rat := none
  taxName : Option String := none
  trackingCategories : Option Json := none

/-- One entry of the response's `Journals` array: the keys read by
`simplify_journals`. -/
structure RawJournal where
  journalDate : Option String := none
  journalID : Option String := none
  journalNumber : Option Int := none
  createdDateUTC : Option String := none
  reference : Option String := none
  sourceID : Option String := none
  sourceType : Option String := none
  journalLines : Option (List RawJournalLine) := none

/-- A truthy journals response: its `Journals` array. A `none` entry models a
falsy element (`if not journal: continue`). -/
structure RawJournals where
  journals : List (Option RawJournal)

/-- One flattened journal line as built by the inner loop of
`simplify_journals`. -/
structure SimpleJournalLine where
  timestamp : Option Int
  extracted : String
  journal_id : Option String
  journal_number : Option Int
  created_date_utc : Option Int
  journal_reference : Option String
  source_id : Option String
  journal_type : Option String
  journal_line_id : Option String
  account_id : Option String
  account_code : Option String
  account_type : Option String
  account_name : Option String
  description : Option String
  net_amount : Option Rat
  gross_amount : Option Rat
  tax_amount : Option Rat
  tax_name : Option String
  tracking : Option Json

/-- The `new_line` dictionary built for one raw line of one journal
(`journal.get('JournalDate', '')` passes the empty string when the key is
absent, so a journal that has lines but no parseable date raises). -/
def simplifyLine (extracted : String) (j : RawJournal)
    (line : RawJournalLine) : Except Unit SimpleJournalLine := do
  let ts ← date_to_seconds (some (j.journalDate.getD "")) true
  let cd ← date_to_seconds (some (j.createdDateUTC.getD "")) true
  return { timestamp := ts
           extracted := extracted
           journal_id := j.journalID
           journal_number := j.journalNumber
           created_date_utc := cd
           journal_reference := j.reference
           source_id := j.sourceID
           journal_type := j.sourceType
           journal_line_id := line.journalLineID
           account_id := line.accountID
           account_code := line.accountCode
           account_type := line.accountType
           account_name := line.accountName
           description := line.description
           net_amount := line.netAmount
           gross_amount := line.grossAmount
           tax_amount := line.taxAmount
           tax_name := line.taxName
           tracking := line.trackingCategories }

/-- `simplify_journals`: flatten every line of every truthy journal, in
order, into a single-depth list. -/
def simplify_journals (raw : RawJournals) (extracted : String) :
    Except Unit (List SimpleJournalLine) :=
  raw.journals.foldlM
    (fun acc oj =>
      match oj with
      | none => .ok acc
      | some j =>
          (j.journalLines.getD []).foldlM
            (fun acc2 line => do
              let nl ← simplifyLine extracted j line
              return acc2 ++ [nl])
            acc)
    []

/-- The `offset` parameter derived from a page: `{'offset':
new_lines[-1]['journal_number']}` — `some` of the last normalized record's
journal number (itself optional). -/
def offsetParamOf (l : List SimpleJournalLine) : Option (Option Int) :=
  l.getLast?.map (fun x => x.journal_number)

/-- The outcome of `get_journals`' paging loop. -/
inductive JournalsOutcome where
  | ok (lines : List SimpleJournalLine)
  | apiError
  | exn
  | fuelOut

/-- The `while True` loop of `get_journals`. The environment supplies the
response of the `t`-th GET (`pages t`, `none` for a falsy response) and the
`datetime.now()` string of the `t`-th iteration (`extractedAt t`). Returns
the outcome together with the `params` value sent on each request (`none` on
the first request, `some offset` afterwards); `fuel` bounds the recursion
and `.fuelOut` marks exhaustion (the source loop runs unboundedly). -/
def getJournalsAux (pages : Nat → Option RawJournals)
    (extractedAt : Nat → String) :
    Nat → Nat → Option (Option Int) → List SimpleJournalLine →
    JournalsOutcome × List (Option (Option Int))
  | 0, _, _, _ => (.fuelOut, [])
  | fuel+1, t, params, acc =>
      match pages t with
      | none => (.apiError, [params])
      | some raw =>
          match simplify_journals raw (extractedAt t) with
          | .error _ => (.exn, [params])
          | .ok newLines =>
              match newLines with
              | [] => (.ok acc, [params])
              | l :: ls =>
                  let rest := getJournalsAux pages extractedAt fuel (t+1)
                    (some ((l :: ls).getLast (List.cons_ne_nil l ls)).journal_number)
                    (acc ++ (l :: ls))
                  (rest.1, params :: rest.2)

/-- `get_journals`: run the paging loop from the first request
(`params = None`, empty accumulator). -/
def get_journals (pages : Nat → Option RawJournals)
    (extractedAt : Nat → String) (fuel : Nat) :
    JournalsOutcome × List (Option (Option Int)) :=
  getJournalsAux pages extractedAt fuel 0 none []

/-! ### Web-scrape report polling (`base_server/tasks/web_scrape.py`) -/

/-- Python `results.get('status') == 'pending'` on a JSON dictionary. -/
def Json.isPendingStatus (j : Json) : Bool :=
  match j.objGet? "status" with
  | some (.str st) => st == "pending"
  | _ => false

/-- The artifact returned by `get_management_report`:
`base64.b64decode(results['content'])`, kept symbolic (the byte-level
decoding is done by the standard library and is irrelevant to the polling
loop). -/
inductive ScrapeBytes where
  | b64decode (content : Json)

/-- How the polling loop of `get_management_report` exited. Every outcome
except `done` makes the Python function return `None`. -/
inductive PollOutcome where
  | timedOut
  | apiError
  | broke
  | done (b : ScrapeBytes)
  | fuelOut

/-- The Python return value for each loop outcome. -/
def PollOutcome.toResult : PollOutcome → Option ScrapeBytes
  | .done b => some b
  | _ => none

/-- The wall-clock instant (relative to `start_time`) at which the `k`-th GET
is issued: each iteration consumes the request's duration `dur k` plus the
fixed `time.sleep(1)`. -/
def pollTimes (dur : Nat → ℚ) : Nat → ℚ
  | 0 => 0
  | k+1 => pollTimes dur k + dur k + 1

/-- The `while time.time() - start_time < timeout` loop of
`get_management_report`. The environment supplies the response of the `t`-th
GET (`respond t`, `none` for a request failure) and its duration `dur t`;
`elapsed` is the time already consumed. Returns the outcome and the times at
which polls were issued. `fuel` bounds the recursion (`.fuelOut` marks
exhaustion; the source loop is bounded only by the clock). -/
def getManagementReportAux (respond : Nat → Option Json) (dur : Nat → ℚ)
    (timeout : ℚ) : Nat → Nat → ℚ → PollOutcome × List ℚ
  | 0, _, _ => (.fuelOut, [])
  | fuel+1, t, elapsed =>
      if elapsed < timeout then
        match respond t with
        | some (Json.obj fields) =>
            if (Json.obj fields).isPendingStatus then
              let rest := getManagementReportAux respond dur timeout fuel
                (t+1) (elapsed + dur t + 1)
              (rest.1, elapsed :: rest.2)
            else if (Json.obj fields).hasKey "content" then
              match (Json.obj fields).objGet? "content" with
              | some c => (.done (.b64decode c), [elapsed])
              | none => (.broke, [elapsed])
            else (.broke, [elapsed])
        | _ => (.apiError, [elapsed])
      else (.timedOut, [])

/-- `get_management_report`: run the polling loop from `elapsed = 0` with
enough fuel for every possible run (each pending iteration consumes at least
the 1-second sleep, so at most `⌈timeout⌉` polls can start before the
deadline). -/
def get_management_report (respond : Nat → Option Json) (dur : Nat → ℚ)
    (timeout : ℚ) : PollOutcome × List ℚ :=
  getManagementReportAux respond dur timeout (Nat.ceil timeout + 1) 0 0

/-! ### Concrete sample states used by counterexamples and witnesses -/

/-- A concrete sheet preload without grid data. -/
def sampleSheetPreload : SheetPreload :=
  { spreadsheetId := "ss", sheetId := 1, title := "Tab", rowData := none }

/-- A concrete `Sheet` with one queued request. -/
def sampleSheetState : SheetState String :=
  { spreadsheet_id := "ss", sheet_id := 1, sheet_name := "Tab"
    requests := ["set_value_A1"], width := 0, cell_array := [] }

/-- A concrete `Spreadsheet` with one queued request. -/
def sampleSpreadsheetState : SpreadsheetState String :=
  { spreadsheet_id := "ss", requests := ["add_sheet"], title_key := [(1, "Tab")] }

/-- A concrete `Document` with one queued request. -/
def sampleDocumentState : DocumentState String :=
  { document_id := "doc", requests := ["replace_all_text"] }

/-- A concrete `Sheet` with an empty queue. -/
def idleSheetState : SheetState String :=
  { spreadsheet_id := "ss", sheet_id := 1, sheet_name := "Tab"
    requests := [], width := 0, cell_array := [] }

/-- A concrete `Spreadsheet` with an empty queue. -/
def idleSpreadsheetState : SpreadsheetState String :=
  { spreadsheet_id := "ss", requests := [], title_key := [(1, "Tab")] }

/-- A concrete `Document` with an empty queue. -/
def idleDocumentState : DocumentState String :=
  { document_id := "doc", requests := [] }

/-- A concrete always-pending poll response. -/
def samplePendingResponse : Json := .obj [("status", .str "pending")]

/-- A concrete raw journal line. -/
def sampleRawJournalLine : RawJournalLine :=
  { journalLineID := some "jl1", netAmount := some 10 }

/-- A concrete raw journal with one line. -/
def sampleRawJournal : RawJournal :=
  { journalDate := some "/Date(1000+0000)/"
    journalID := some "j1"
    journalNumber := some 5
    createdDateUTC := some "/Date(2000+0000)/"
    journalLines := some [sampleRawJournalLine] }

/-- A concrete paged endpoint: one non-empty page, then empty pages. -/
def samplePages : Nat → Option RawJournals :=
  fun t => if t = 0 then some ⟨[some sampleRawJournal]⟩ else some ⟨[]⟩

/-- The normalized line of `sampleRawJournal`. -/
def sampleSimpleLine : SimpleJournalLine :=
  { timestamp := some 1, extracted := "now", journal_id := some "j1",
    journal_number := some 5, created_date_utc := some 2,
    journal_reference := none, source_id := none, journal_type := none,
    journal_line_id := some "jl1", account_id := none, account_code := none,
    account_type := none, account_name := none, description := none,
    net_amount := some 10, gross_amount := none, tax_amount := none,
    tax_name := none, tracking := none }

/-- The normalized lines of each page of `samplePages`. -/
def sampleJournalPageLines : Nat → List SimpleJournalLine :=
  fun t => if t = 0 then [sampleSimpleLine] else []

/-- A concrete `Sheet` whose snapshot grid is a single empty cell. -/
def sampleGridSheet : SheetState String :=
  { spreadsheet_id := "ss", sheet_id := 1, sheet_name := "Tab"
    requests := [], width := 1, cell_array := [[SheetCell.empty]] }

/-! ## Theorems -/

/-- Helper: committing with an empty queue is a trivial success with no
network traffic (`Sheet`). -/
theorem sheet_commit_empty {Req : Type} (s : SheetState Req)
    (svc : SheetBatchBody Req → Option SheetBatchResponse) (update : Bool)
    (h : s.requests = []) :
    Sheet.commit_changes s svc update = (some (true, s), []) := by
  unfold Sheet.commit_changes
  rw [if_pos (by simp [h])]

/-- Helper: committing with an empty queue is a trivial success with no
network traffic (`Spreadsheet`). -/
theorem spreadsheet_commit_empty {Req : Type} (s : SpreadsheetState Req)
    (svc : SpreadsheetBatchBody Req → Option SpreadsheetBatchResponse)
    (update : Bool) (h : s.requests = []) :
    Spreadsheet.commit_changes s svc update = (some (true, s), []) := by
  unfold Spreadsheet.commit_changes
  rw [if_pos (by simp [h])]

/-- Helper: committing with an empty queue is a trivial success with no
network traffic (`Document`). -/
theorem document_commit_empty {Req : Type} (s : DocumentState Req)
    (svc : DocBatchBody Req → Option Unit) (h : s.requests = []) :
    Document.commit_changes s svc = ((true, s), []) := by
  unfold Document.commit_changes
  rw [if_pos (by simp [h])]

/-- Helper: a failed batch update returns `False` and leaves the `Sheet`
state (queue included) untouched. -/
theorem sheet_commit_failed {Req : Type} (s : SheetState Req)
    (svc : SheetBatchBody Req → Option SheetBatchResponse) (update : Bool)
    (hq : s.requests ≠ []) (hf : svc (Sheet.commitBody s update) = none) :
    Sheet.commit_changes s svc update
      = (some (false, s), [Sheet.commitBody s update]) := by
  have hq2 : ¬ s.requests.length = 0 := by simpa [List.length_eq_zero] using hq
  simp [Sheet.commit_changes, hq2, hf]

/-- Helper: a failed batch update returns `False` and leaves the
`Spreadsheet` state untouched. -/
theorem spreadsheet_commit_failed {Req : Type} (s : SpreadsheetState Req)
    (svc : SpreadsheetBatchBody Req → Option SpreadsheetBatchResponse)
    (update : Bool) (hq : s.requests ≠ [])
    (hf : svc (Spreadsheet.commitBody s update) = none) :
    Spreadsheet.commit_changes s svc update
      = (some (false, s), [Spreadsheet.commitBody s update]) := by
  have hq2 : ¬ s.requests.length = 0 := by simpa [List.length_eq_zero] using hq
  simp [Spreadsheet.commit_changes, hq2, hf]

/-- Helper: a failed batch update returns `False` and leaves the `Document`
state untouched. -/
theorem document_commit_failed {Req : Type} (s : DocumentState Req)
    (svc : DocBatchBody Req → Option Unit) (hq : s.requests ≠ [])
    (hf : svc (Document.commitBody s) = none) :
    Document.commit_changes s svc = ((false, s), [Document.commitBody s]) := by
  have hq2 : s.requests.isEmpty = false := by simpa [List.isEmpty_iff] using hq
  simp [Document.commit_changes, hq2, hf]

/-- Helper: a successful `Sheet` commit with `update=True` reloads from the
response (clearing the queue). -/
theorem sheet_commit_success_update {Req : Type} (s : SheetState Req)
    (svc : SheetBatchBody Req → Option SheetBatchResponse) (p : SheetPreload)
    (hq : s.requests ≠ [])
    (hs : svc (Sheet.commitBody s true) = some { updatedSpreadsheet := some p }) :
    Sheet.commit_changes s svc true
      = (some (true, Sheet.reload s p), [Sheet.commitBody s true]) := by
  have hq2 : ¬ s.requests.length = 0 := by simpa [List.length_eq_zero] using hq
  simp [Sheet.commit_changes, hq2, hs]

/-- Helper: a successful `Sheet` commit with `update=False` returns `True`
but does not change the state — in particular it does not clear the queue. -/
theorem sheet_commit_success_noupdate {Req : Type} (s : SheetState Req)
    (svc : SheetBatchBody Req → Option SheetBatchResponse)
    (r : SheetBatchResponse) (hq : s.requests ≠ [])
    (hs : svc (Sheet.commitBody s false) = some r) :
    Sheet.commit_changes s svc false
      = (some (true, s), [Sheet.commitBody s false]) := by
  have hq2 : ¬ s.requests.length = 0 := by simpa [List.length_eq_zero] using hq
  simp [Sheet.commit_changes, hq2, hs]

/-- Helper: a successful `Spreadsheet` commit with `update=True` reloads from
the response (clearing the queue). -/
theorem spreadsheet_commit_success_update {Req : Type}
    (s : SpreadsheetState Req)
    (svc : SpreadsheetBatchBody Req → Option SpreadsheetBatchResponse)
    (p : SpreadsheetPreload) (hq : s.requests ≠ [])
    (hs : svc (Spreadsheet.commitBody s true)
        = some { updatedSpreadsheet := some p }) :
    Spreadsheet.commit_changes s svc true
      = (some (true, Spreadsheet.reload s p), [Spreadsheet.commitBody s true]) := by
  have hq2 : ¬ s.requests.length = 0 := by simpa [List.length_eq_zero] using hq
  simp [Spreadsheet.commit_changes, hq2, hs]

/-- Helper: a successful `Spreadsheet` commit with `update=False` returns
`True` but does not change the state. -/
theorem spreadsheet_commit_success_noupdate {Req : Type}
    (s : SpreadsheetState Req)
    (svc : SpreadsheetBatchBody Req → Option SpreadsheetBatchResponse)
    (r : SpreadsheetBatchResponse) (hq : s.requests ≠ [])
    (hs : svc (Spreadsheet.commitBody s false) = some r) :
    Spreadsheet.commit_changes s svc false
      = (some (true, s), [Spreadsheet.commitBody s false]) := by
  have hq2 : ¬ s.requests.length = 0 := by simpa [List.length_eq_zero] using hq
  simp [Spreadsheet.commit_changes, hq2, hs]

/-- Helper: a successful `Document` commit resets the queue. -/
theorem document_commit_success {Req : Type} (s : DocumentState Req)
    (svc : DocBatchBody Req → Option Unit) (hq : s.requests ≠ [])
    (hs : svc (Document.commitBody s) = some ()) :
    Document.commit_changes s svc
      = ((true, { s with requests := [] }), [Document.commitBody s]) := by
  have hq2 : s.requests.isEmpty = false := by simpa [List.isEmpty_iff] using hq
  simp [Document.commit_changes, hq2, hs]

/-- Helper: `Sheet.reload` always produces an empty request queue. -/
theorem sheet_reload_requests {Req : Type} (s : SheetState Req)
    (p : SheetPreload) : (Sheet.reload s p).requests = [] := rfl

/-- Helper: `Spreadsheet.reload` always produces an empty request queue. -/
theorem spreadsheet_reload_requests {Req : Type} (s : SpreadsheetState Req)
    (p : SpreadsheetPreload) : (Spreadsheet.reload s p).requests = [] := rfl

/-- C1 counterexample: a successful `Sheet.commit_changes` with
`update=False` returns `True` yet leaves the pending queue non-empty — the
claim that success always clears the queue for both values of `update` is
false on the code. -/
theorem commit_update_false_keeps_queue :
    (Sheet.commit_changes sampleSheetState
        (fun _ => some { updatedSpreadsheet := some sampleSheetPreload })
        false).1
      = some (true, sampleSheetState)
    ∧ sampleSheetState.requests = ["set_value_A1"] := by
  exact ⟨rfl, rfl⟩

/-- C1 (amended): a successful commit clears the queue for `Document`
(always) and for `Sheet`/`Spreadsheet` when `update=True` (via the snapshot
reload); with `update=False`, a successful `Sheet`/`Spreadsheet` commit
returns `True` but leaves the object — queue included — unchanged. -/
theorem commit_success_clears_queue_iff_update (Req : Type)
    (s : SheetState Req)
    (svcS : SheetBatchBody Req → Option SheetBatchResponse)
    (p : SheetPreload) (r : SheetBatchResponse)
    (ss : SpreadsheetState Req)
    (svcP : SpreadsheetBatchBody Req → Option SpreadsheetBatchResponse)
    (pp : SpreadsheetPreload) (rr : SpreadsheetBatchResponse)
    (d : DocumentState Req) (svcD : DocBatchBody Req → Option Unit) :
    (s.requests ≠ [] →
      svcS (Sheet.commitBody s true) = some { updatedSpreadsheet := some p } →
        (Sheet.commit_changes s svcS true).1 = some (true, Sheet.reload s p)
        ∧ (Sheet.reload s p).requests = [])
    ∧ (s.requests ≠ [] → svcS (Sheet.commitBody s false) = some r →
        (Sheet.commit_changes s svcS false).1 = some (true, s))
    ∧ (ss.requests ≠ [] →
      svcP (Spreadsheet.commitBody ss true)
          = some { updatedSpreadsheet := some pp } →
        (Spreadsheet.commit_changes ss svcP true).1
            = some (true, Spreadsheet.reload ss pp)
        ∧ (Spreadsheet.reload ss pp).requests = [])
    ∧ (ss.requests ≠ [] → svcP (Spreadsheet.commitBody ss false) = some rr →
        (Spreadsheet.commit_changes ss svcP false).1 = some (true, ss))
    ∧ (d.requests ≠ [] → svcD (Document.commitBody d) = some () →
        (Document.commit_changes d svcD).1 = (true, { d with requests := [] })
        ∧ ({ d with requests := ([] : List Req) }).requests = []) := by
  refine ⟨?_, ?_, ?_, ?_, ?_⟩
  · intro hq hs
    rw [sheet_commit_success_update s svcS p hq hs]
    exact ⟨rfl, sheet_reload_requests s p⟩
  · intro hq hs
    rw [sheet_commit_success_noupdate s svcS r hq hs]
  · intro hq hs
    rw [spreadsheet_commit_success_update ss svcP pp hq hs]
    exact ⟨rfl, spreadsheet_reload_requests ss pp⟩
  · intro hq hs
    rw [spreadsheet_commit_success_noupdate ss svcP rr hq hs]
  · intro hq hs
    rw [document_commit_success d svcD hq hs]
    exact ⟨rfl, rfl⟩

/-- Witness for C1's amended statement at concrete states and services. -/
theorem commit_success_clears_queue_iff_update_witness :
    ((Sheet.commit_changes sampleSheetState
        (fun _ => some { updatedSpreadsheet := some sampleSheetPreload })
        true).1
      = some (true, Sheet.reload sampleSheetState sampleSheetPreload)
      ∧ (Sheet.reload sampleSheetState sampleSheetPreload).requests = [])
    ∧ ((Document.commit_changes sampleDocumentState (fun _ => some ())).1
      = (true, { sampleDocumentState with requests := [] })
      ∧ ({ sampleDocumentState with requests := ([] : List String) }).requests
          = []) := by
  have h := commit_success_clears_queue_iff_update String
    sampleSheetState (fun _ => some { updatedSpreadsheet := some sampleSheetPreload })
    sampleSheetPreload { updatedSpreadsheet := none }
    sampleSpreadsheetState (fun _ => none)
    { spreadsheetId := "ss", sheets := [] } { updatedSpreadsheet := none }
    sampleDocumentState (fun _ => some ())
  exact ⟨h.1 (by simp [sampleSheetState]) rfl,
    h.2.2.2.2 (by simp [sampleDocumentState]) rfl⟩

/-- C3: when the batch update returns no result, `commit_changes` returns
`False` and the object state — in particular the pending request queue — is
exactly what it was before the call, so the identical commit can be
retried. -/
theorem commit_failure_retry_safe (Req : Type)
    (s : SheetState Req)
    (svcS : SheetBatchBody Req → Option SheetBatchResponse) (update : Bool)
    (ss : SpreadsheetState Req)
    (svcP : SpreadsheetBatchBody Req → Option SpreadsheetBatchResponse)
    (update2 : Bool)
    (d : DocumentState Req) (svcD : DocBatchBody Req → Option Unit) :
    (s.requests ≠ [] → svcS (Sheet.commitBody s update) = none →
        Sheet.commit_changes s svcS update
          = (some (false, s), [Sheet.commitBody s update]))
    ∧ (ss.requests ≠ [] → svcP (Spreadsheet.commitBody ss update2) = none →
        Spreadsheet.commit_changes ss svcP update2
          = (some (false, ss), [Spreadsheet.commitBody ss update2]))
    ∧ (d.requests ≠ [] → svcD (Document.commitBody d) = none →
        Document.commit_changes d svcD
          = ((false, d), [Document.commitBody d])) :=
  ⟨fun hq hf => sheet_commit_failed s svcS update hq hf,
   fun hq hf => spreadsheet_commit_failed ss svcP update2 hq hf,
   fun hq hf => document_commit_failed d svcD hq hf⟩

/-- Witness for C3 at concrete non-empty queues and an always-failing
service. -/
theorem commit_failure_retry_safe_witness :
    Sheet.commit_changes sampleSheetState (fun _ => none) false
      = (some (false, sampleSheetState), [Sheet.commitBody sampleSheetState false])
    ∧ Document.commit_changes sampleDocumentState (fun _ => none)
      = ((false, sampleDocumentState), [Document.commitBody sampleDocumentState]) := by
  have h := commit_failure_retry_safe String
    sampleSheetState (fun _ => none) false
    sampleSpreadsheetState (fun _ => none) false
    sampleDocumentState (fun _ => none)
  exact ⟨h.1 (by simp [sampleSheetState]) rfl,
    h.2.2 (by simp [sampleDocumentState]) rfl⟩

/-- C7: a commit with an empty pending queue returns `True` and issues no
network call (the list of issued request bodies is empty), for all three
Document Proxies. -/
theorem commit_empty_queue_no_network (Req : Type)
    (s : SheetState Req)
    (svcS : SheetBatchBody Req → Option SheetBatchResponse) (update : Bool)
    (ss : SpreadsheetState Req)
    (svcP : SpreadsheetBatchBody Req → Option SpreadsheetBatchResponse)
    (update2 : Bool)
    (d : DocumentState Req) (svcD : DocBatchBody Req → Option Unit) :
    (s.requests = [] → Sheet.commit_changes s svcS update = (some (true, s), []))
    ∧ (ss.requests = [] →
        Spreadsheet.commit_changes ss svcP update2 = (some (true, ss), []))
    ∧ (d.requests = [] → Document.commit_changes d svcD = ((true, d), [])) :=
  ⟨fun h => sheet_commit_empty s svcS update h,
   fun h => spreadsheet_commit_empty ss svcP update2 h,
   fun h => document_commit_empty d svcD h⟩

/-- Witness for C7 at concrete empty-queue states. -/
theorem commit_empty_queue_no_network_witness :
    Sheet.commit_changes idleSheetState (fun _ => none) false
      = (some (true, idleSheetState), [])
    ∧ Spreadsheet.commit_changes idleSpreadsheetState (fun _ => none) true
      = (some (true, idleSpreadsheetState), [])
    ∧ Document.commit_changes idleDocumentState (fun _ => none)
      = ((true, idleDocumentState), []) := by
  have h := commit_empty_queue_no_network String
    idleSheetState (fun _ => none) false
    idleSpreadsheetState (fun _ => none) true
    idleDocumentState (fun _ => none)
  exact ⟨h.1 rfl, h.2.1 rfl, h.2.2 rfl⟩

/-- C6: the read accessors are pure functions of the snapshot (their Lean
embedding takes no service argument and is total, mirroring the source
methods, which perform no network call and catch `IndexError`); they return
`none` for any out-of-bounds row, for any out-of-bounds column, and for an
empty cell (`{}`). -/
theorem get_value_accessors_safe (Req : Type) (s : SheetState Req)
    (row column : Nat) :
    (s.cell_array.length ≤ row →
        Sheet.get_value s row column = none
        ∧ Sheet.get_formatted_value s row column = none)
    ∧ (∀ r, s.cell_array[row]? = some r → r.length ≤ column →
        Sheet.get_value s row column = none
        ∧ Sheet.get_formatted_value s row column = none)
    ∧ (∀ r, s.cell_array[row]? = some r →
        r[column]? = some SheetCell.empty →
        Sheet.get_value s row column = none
        ∧ Sheet.get_formatted_value s row column = none) := by
  refine ⟨?_, ?_, ?_⟩
  · intro h
    have h0 : s.cell_array[row]? = none := by
      rw [List.getElem?_eq_none_iff]
      exact h
    constructor <;> simp [Sheet.get_value, Sheet.get_formatted_value, h0]
  · intro r hr hc
    have h0 : r[column]? = none := by
      rw [List.getElem?_eq_none_iff]
      exact hc
    constructor <;> simp [Sheet.get_value, Sheet.get_formatted_value, hr, h0]
  · intro r hr hc
    constructor <;>
      simp [Sheet.get_value, Sheet.get_formatted_value, hr, hc,
        SheetCell.empty, ExtendedValue.preferred]

/-- Witness for C6 on a concrete one-cell grid: out-of-bounds row and empty
cell both read as `none`. -/
theorem get_value_accessors_safe_witness :
    (Sheet.get_value sampleGridSheet 5 0 = none
      ∧ Sheet.get_formatted_value sampleGridSheet 5 0 = none)
    ∧ (Sheet.get_value sampleGridSheet 0 0 = none
      ∧ Sheet.get_formatted_value sampleGridSheet 0 0 = none) := by
  have h := get_value_accessors_safe String sampleGridSheet 5 0
  have h2 := get_value_accessors_safe String sampleGridSheet 0 0
  exact ⟨h.1 (by decide), h2.2.2 [SheetCell.empty] rfl rfl⟩

/-- Helper: the paging loop of `get_journals`, run from request `t₀` with
`n` non-empty pages left before the first empty page `N`, terminates with the
accumulator extended by the pages' normalized lines in fetch order, having
used each page's last record's journal number as the next request's offset
parameter. -/
theorem getJournalsAux_spec (pages : Nat → Option RawJournals)
    (extractedAt : Nat → String) (lines : Nat → List SimpleJournalLine)
    (N : Nat)
    (Hok : ∀ t, t ≤ N → ∃ raw, pages t = some raw
        ∧ simplify_journals raw (extractedAt t) = .ok (lines t))
    (Hne : ∀ t, t < N → lines t ≠ [])
    (Hemp : lines N = []) :
    ∀ n t₀ fuel params acc, t₀ + n = N → n < fuel →
      getJournalsAux pages extractedAt fuel t₀ params acc
        = (.ok ((List.range' t₀ n).foldl (fun a t => a ++ lines t) acc),
           params :: (List.range' t₀ n).map (fun t => offsetParamOf (lines t))) := by
  intro n
  induction n with
  | zero =>
      intro t₀ fuel params acc ht hf
      have ht0 : t₀ = N := by omega
      subst ht0
      obtain ⟨raw, hp, hs⟩ := Hok t₀ (le_refl t₀)
      cases fuel with
      | zero => omega
      | succ f => simp [getJournalsAux, hp, hs, Hemp]
  | succ n ih =>
      intro t₀ fuel params acc ht hf
      obtain ⟨raw, hp, hs⟩ := Hok t₀ (by omega)
      have hne : lines t₀ ≠ [] := Hne t₀ (by omega)
      obtain ⟨l, ls, hl⟩ : ∃ l ls, lines t₀ = l :: ls := by
        cases h : lines t₀ with
        | nil => exact absurd h hne
        | cons a as => exact ⟨a, as, rfl⟩
      cases fuel with
      | zero => omega
      | succ f =>
          rw [hl] at hs
          have hrec := ih (t₀+1) f
            (some ((l :: ls).getLast (List.cons_ne_nil l ls)).journal_number)
            (acc ++ (l :: ls)) (by omega) (by omega)
          simp [getJournalsAux, hp, hs, hrec, List.range'_succ, hl,
            offsetParamOf, List.getLast?_eq_getLast_of_ne_nil (List.cons_ne_nil l ls)]

/-- C5: when the journals endpoint returns pages whose normalized lines are
non-empty up to the first empty page `N`, the paging loop of `get_journals`
terminates, each request after the first carries the previous page's last
normalized record's journal number as the `offset` parameter, and the result
is the concatenation, in fetch order, of the normalized lines of the pages
fetched before the empty one. -/
theorem get_journals_pagination (pages : Nat → Option RawJournals)
    (extractedAt : Nat → String) (lines : Nat → List SimpleJournalLine)
    (N : Nat)
    (Hok : ∀ t, t ≤ N → ∃ raw, pages t = some raw
        ∧ simplify_journals raw (extractedAt t) = .ok (lines t))
    (Hne : ∀ t, t < N → lines t ≠ [])
    (Hemp : lines N = [])
    (fuel : Nat) (hfuel : N < fuel) :
    get_journals pages extractedAt fuel
      = (.ok ((List.range N).foldl (fun a t => a ++ lines t) []),
         none :: (List.range N).map (fun t => offsetParamOf (lines t))) := by
  have h := getJournalsAux_spec pages extractedAt lines N Hok Hne Hemp
    N 0 fuel none [] (by omega) hfuel
  rw [get_journals, h, List.range_eq_range']

/-- Witness for C5: one non-empty page then an empty page; the fetch
terminates with that page's lines and the second request used
`offset = 5`. -/
theorem get_journals_pagination_witness :
    get_journals samplePages (fun _ => "now") 2
      = (.ok [sampleSimpleLine], [none, some (some 5)]) := by
  have h := get_journals_pagination samplePages (fun _ => "now")
    sampleJournalPageLines 1
    (fun t ht => by
      match t, ht with
      | 0, _ => exact ⟨⟨[some sampleRawJournal]⟩, rfl, rfl⟩
      | 1, _ => exact ⟨⟨[]⟩, rfl, rfl⟩)
    (fun t ht => by
      have h0 : t = 0 := by omega
      subst h0
      simp [sampleJournalPageLines])
    (by simp [sampleJournalPageLines])
    2 (by omega)
  rw [h]
  rfl

/-- Helper: advancing past a poll that costs `d ≥ 0` plus the 1-second sleep
strictly decreases the number of remaining whole seconds before the
deadline. -/
theorem ceil_remaining_decreases (timeout e d : ℚ) (hd : 0 ≤ d)
    (h : e < timeout) :
    Nat.ceil (timeout - (e + d + 1)) < Nat.ceil (timeout - e) := by
  have h1 : 0 < timeout - e := by linarith
  have h2 : 1 ≤ Nat.ceil (timeout - e) := Nat.ceil_pos.mpr h1
  have h3 : timeout - (e + d + 1) ≤ ((Nat.ceil (timeout - e) - 1 : ℕ) : ℚ) := by
    have h4 : timeout - e ≤ (Nat.ceil (timeout - e) : ℚ) := Nat.le_ceil _
    rw [Nat.cast_sub h2, Nat.cast_one]
    linarith
  have h5 := Nat.ceil_le.mpr h3
  omega

/-- Helper: against an always-pending responder, the polling loop started at
poll `k` (at instant `pollTimes dur k`) with enough fuel exits through the
`while` condition, having issued polls exactly at the instants
`pollTimes dur k, pollTimes dur (k+1), ...`, all strictly before the
deadline. -/
theorem getManagementReportAux_pending (respond : Nat → Option Json)
    (dur : Nat → ℚ) (timeout : ℚ) (hdur : ∀ t, 0 ≤ dur t)
    (hpend : ∀ t, ∃ fields, respond t = some (Json.obj fields)
        ∧ (Json.obj fields).isPendingStatus = true) :
    ∀ fuel k, Nat.ceil (timeout - pollTimes dur k) < fuel →
      ∃ n, getManagementReportAux respond dur timeout fuel k (pollTimes dur k)
          = (.timedOut, (List.range' k n).map (pollTimes dur))
        ∧ ∀ i ∈ List.range' k n, pollTimes dur i < timeout := by
  intro fuel
  induction fuel with
  | zero => intro k h; omega
  | succ f ih =>
      intro k h
      by_cases hlt : pollTimes dur k < timeout
      · obtain ⟨fields, hr, hp⟩ := hpend k
        have hkey : Nat.ceil (timeout - pollTimes dur (k+1)) < f := by
          have step := ceil_remaining_decreases timeout (pollTimes dur k)
            (dur k) (hdur k) hlt
          have hpt : pollTimes dur (k+1) = pollTimes dur k + dur k + 1 := rfl
          rw [hpt]
          omega
        obtain ⟨n, hn, hmem⟩ := ih (k+1) hkey
        refine ⟨n+1, ?_, ?_⟩
        · have hrec : getManagementReportAux respond dur timeout f (k+1)
              (pollTimes dur k + dur k + 1)
              = (.timedOut, (List.range' (k+1) n).map (pollTimes dur)) := hn
          simp [getManagementReportAux, hlt, hr, hp, hrec, List.range'_succ]
        · intro i hi
          rw [List.range'_succ, List.mem_cons] at hi
          rcases hi with hi | hi
          · rw [hi]; exact hlt
          · exact hmem i hi
      · refine ⟨0, ?_, ?_⟩
        · simp [getManagementReportAux, hlt]
        · intro i hi
          simp [List.range'] at hi

/-- C8: against a status endpoint that always reports `pending`, the polling
loop of `get_management_report` terminates by the wall clock: it returns
`.timedOut` (Python `None`), every poll is issued strictly before the
configured timeout, and the polls occur at the instants `pollTimes dur k`,
consecutive ones separated by exactly the request duration plus the fixed
1-second sleep. -/
theorem get_management_report_timeout (respond : Nat → Option Json)
    (dur : Nat → ℚ) (timeout : ℚ) (hdur : ∀ t, 0 ≤ dur t)
    (hpend : ∀ t, ∃ fields, respond t = some (Json.obj fields)
        ∧ (Json.obj fields).isPendingStatus = true) :
    (get_management_report respond dur timeout).1 = .timedOut
    ∧ ((get_management_report respond dur timeout).1).toResult = none
    ∧ (∀ q ∈ (get_management_report respond dur timeout).2, q < timeout)
    ∧ ∃ n, (get_management_report respond dur timeout).2
        = (List.range n).map (pollTimes dur) := by
  have hf : Nat.ceil (timeout - pollTimes dur 0) < Nat.ceil timeout + 1 := by
    have h0 : pollTimes dur 0 = 0 := rfl
    rw [h0, sub_zero]
    omega
  obtain ⟨n, hn, hmem⟩ := getManagementReportAux_pending respond dur timeout
    hdur hpend (Nat.ceil timeout + 1) 0 hf
  have hn2 : get_management_report respond dur timeout
      = (.timedOut, (List.range' 0 n).map (pollTimes dur)) := hn
  rw [hn2]
  refine ⟨rfl, rfl, ?_, n, by rw [List.range_eq_range']⟩
  intro q hq
  rw [List.mem_map] at hq
  obtain ⟨i, hi, hqi⟩ := hq
  rw [← hqi]
  exact hmem i hi

/-- Witness for C8: an always-pending endpoint with instantaneous requests
and a 2-second timeout. -/
theorem get_management_report_timeout_witness :
    (get_management_report (fun _ => some samplePendingResponse)
        (fun _ => 0) 2).1 = .timedOut
    ∧ ((get_management_report (fun _ => some samplePendingResponse)
        (fun _ => 0) 2).1).toResult = none
    ∧ (∀ q ∈ (get_management_report (fun _ => some samplePendingResponse)
        (fun _ => 0) 2).2, q < 2)
    ∧ ∃ n, (get_management_report (fun _ => some samplePendingResponse)
        (fun _ => 0) 2).2 = (List.range n).map (pollTimes (fun _ => 0)) :=
  get_management_report_timeout (fun _ => some samplePendingResponse)
    (fun _ => 0) 2 (fun _ => le_refl 0)
    (fun _ => ⟨[("status", .str "pending")], rfl, rfl⟩)

/-- C10: under the process-wide key, `set_tokens` followed by the two token
accessors returns exactly the stored access and refresh token strings
(encrypt-then-decrypt round trip), and both accessors return `none` on a
client with no stored token. -/
theorem xero_tokens_round_trip (key access refresh : String) (expiry : Int)
    (tenant : Option String) (s : XeroClientState) :
    XeroClient.get_access_token key
        (XeroClient.set_tokens s key access refresh expiry tenant)
      = some access
    ∧ XeroClient.get_xero_refresh_token key
        (XeroClient.set_tokens s key access refresh expiry tenant)
      = some refresh
    ∧ XeroClient.get_access_token key
        { access_token := none, refresh_token := none
          access_token_expiry := none, tenant_id := none }
      = none
    ∧ XeroClient.get_xero_refresh_token key
        { access_token := none, refresh_token := none
          access_token_expiry := none, tenant_id := none }
      = none := by
  refine ⟨?_, ?_, rfl, rfl⟩ <;>
    simp [XeroClient.get_access_token, XeroClient.get_xero_refresh_token,
      XeroClient.set_tokens, fernetEncrypt, fernetDecrypt]

/-- Helper: after dropping every leading `'/'`, the head is not `'/'`. -/
theorem head?_dropWhile_slash (l : List Char) :
    (l.dropWhile (· == '/')).head? ≠ some '/' := by
  induction l with
  | nil => simp [List.dropWhile]
  | cons a l ih =>
      by_cases h : a = '/'
      · simpa [List.dropWhile_cons, h] using ih
      · simp [List.dropWhile_cons, h]

/-- Helper: stripping the single leading slash of `"/" ++ e` gives the same
result as stripping `e`. -/
theorem pyLstripSlash_slash_append (e : String) :
    pyLstripSlash ("/" ++ e) = pyLstripSlash e := by
  unfold pyLstripSlash
  have h : ("/" ++ e).data = '/' :: e.data := rfl
  rw [h, List.dropWhile_cons]
  simp

/-- C9: for every base URL (with or without trailing slashes) and every
endpoint (with or without a leading slash), `_prepare_url` joins base and
endpoint with exactly one separator slash: a leading slash on the endpoint is
irrelevant, the stripped endpoint does not start with `'/'`, the stored base
does not end with `'/'`, and whenever the stored base is non-empty the
resolved URL is literally `base ++ "/" ++ endpoint-without-leading-slashes`. -/
theorem prepare_url_single_separator (base e : String) :
    ApiClient.prepare_url (ApiClient.initBaseUrl (some base)) ("/" ++ e)
      = ApiClient.prepare_url (ApiClient.initBaseUrl (some base)) e
    ∧ (pyLstripSlash e).data.head? ≠ some '/'
    ∧ (pyRstripSlash base).data.getLast? ≠ some '/'
    ∧ (pyRstripSlash base ≠ "" →
        ApiClient.prepare_url (ApiClient.initBaseUrl (some base)) e
          = pyRstripSlash base ++ "/" ++ pyLstripSlash e) := by
  refine ⟨?_, ?_, ?_, ?_⟩
  · simp only [ApiClient.prepare_url, ApiClient.initBaseUrl,
      pyLstripSlash_slash_append]
  · exact head?_dropWhile_slash e.data
  · show ((base.data.reverse.dropWhile (· == '/')).reverse).getLast? ≠ some '/'
    rw [List.getLast?_reverse]
    exact head?_dropWhile_slash base.data.reverse
  · intro h
    simp [ApiClient.prepare_url, ApiClient.initBaseUrl, h]

/-- Witness for C9 at a concrete base with a trailing slash and endpoint
without a leading slash. -/
theorem prepare_url_single_separator_witness :
    ApiClient.prepare_url (ApiClient.initBaseUrl (some "http://a/")) ("/" ++ "x")
      = ApiClient.prepare_url (ApiClient.initBaseUrl (some "http://a/")) "x"
    ∧ ApiClient.prepare_url (ApiClient.initBaseUrl (some "http://a/")) "x"
      = pyRstripSlash "http://a/" ++ "/" ++ pyLstripSlash "x" := by
  have h := prepare_url_single_separator "http://a/" "x"
  exact ⟨h.1, h.2.2.2 (by decide)⟩

/-- C2 counterexample: the claim "every non-2xx HTTP status makes the call
return None" is false as stated — with `handle_400=True`, a 400 response
returns the sentinel payload `{'message': 'Bad request'}`, not `None`. -/
theorem request_handle_400_not_none :
    ApiClient.request (.response 400 "err" none) true false
      = some (.jsonBody (.obj [("message", .str "Bad request")]))
    ∧ ApiClient.request (.response 400 "err" none) true false ≠ none := by
  have h1 : ApiClient.request (.response 400 "err" none) true false
      = some (.jsonBody (.obj [("message", .str "Bad request")])) := rfl
  exact ⟨h1, by rw [h1]; simp⟩

/-- C2 (amended): `ApiClient.request` is a total function of the session
outcome (no exception crosses the boundary for ordinary remote failures), and
it returns `None` for a timeout, for a transport/connection failure, for a
non-2xx status after retries, and for a body that is not valid JSON when JSON
was expected — except that `handle_400=True` turns a 400 status into the
sentinel success payload `{'message': 'Bad request'}` instead of `None`. -/
theorem request_absorbs_failures (handle_400 raw : Bool) :
    ApiClient.request .timeout handle_400 raw = none
    ∧ ApiClient.request .transportError handle_400 raw = none
    ∧ (∀ status text json, 400 ≤ status → ¬(handle_400 = true ∧ status = 400) →
        ApiClient.request (.response status text json) handle_400 raw = none)
    ∧ (∀ status text, status < 400 → raw = false →
        ApiClient.request (.response status text none) handle_400 raw = none)
    ∧ (∀ text json, handle_400 = true →
        ApiClient.request (.response 400 text json) handle_400 raw
          = some (.jsonBody (.obj [("message", .str "Bad request")]))) := by
  refine ⟨rfl, rfl, ?_, ?_, ?_⟩
  · intro status text json h h2
    simp only [ApiClient.request]
    rw [if_pos h, if_neg h2]
  · intro status text h hraw
    have h2 : ¬ 400 ≤ status := by omega
    simp [ApiClient.request, h2, hraw]
  · intro text json h
    subst h
    simp [ApiClient.request]

/-- Witness for C2's amended statement at concrete session outcomes. -/
theorem request_absorbs_failures_witness :
    ApiClient.request .timeout false false = none
    ∧ ApiClient.request (.response 500 "e" none) false false = none
    ∧ ApiClient.request (.response 200 "nj" none) false false = none
    ∧ ApiClient.request (.response 400 "e" none) true false
        = some (.jsonBody (.obj [("message", .str "Bad request")])) := by
  have h := request_absorbs_failures false false
  have h2 := request_absorbs_failures true false
  exact ⟨h.1, h.2.2.1 500 "e" none (by decide) (by simp),
    h.2.2.2.1 200 "nj" (by decide) rfl, h2.2.2.2.2 "e" none rfl⟩

/-- C4: `value_to_object` is a total function (it is a Lean `def`, hence
total and deterministic over the accepted input types) and classifies:
booleans to `boolValue`, Python `int`/`float` to `numberValue`, strings
starting with `'='` to `formulaValue`, other non-empty strings to
`stringValue`, and the empty string to no classification (`none`). -/
theorem value_to_object_classification :
    (∀ b, value_to_object (.bool b) = some (.boolValue b))
    ∧ (∀ n, value_to_object (.int n) = some (.numberValue (.int n)))
    ∧ (∀ q, value_to_object (.float q) = some (.numberValue (.float q)))
    ∧ (∀ s, s ≠ "" → s.data.head? = some '=' →
        value_to_object (.str s) = some (.formulaValue s))
    ∧ (∀ s, s ≠ "" → s.data.head? ≠ some '=' →
        value_to_object (.str s) = some (.stringValue s))
    ∧ value_to_object (.str "") = none := by
  refine ⟨fun b => rfl, fun n => rfl, fun q => rfl, ?_, ?_, rfl⟩
  · rintro ⟨l⟩ hs hh
    cases l with
    | nil => exact absurd rfl hs
    | cons c cs =>
        simp only [List.head?] at hh
        simp [value_to_object, String.length, Option.some.injEq] at hh ⊢
        simp [hh]
  · rintro ⟨l⟩ hs hh
    cases l with
    | nil => exact absurd rfl hs
    | cons c cs =>
        simp only [List.head?] at hh
        simp [value_to_object, String.length, Option.some.injEq] at hh ⊢
        simp [hh]

/-- Witness for C4 at concrete inputs: a formula string and a plain string. -/
theorem value_to_object_classification_witness :
    value_to_object (.str "=A1") = some (.formulaValue "=A1")
    ∧ value_to_object (.str "x") = some (.stringValue "x") :=
  ⟨value_to_object_classification.2.2.2.1 "=A1" (by decide) (by decide),
   value_to_object_classification.2.2.2.2.1 "x" (by decide) (by decide)⟩

end BaseServer
